import Mathlib

/-!
# Verification of the noticebot signal-to-order execution pipeline

Shallow embedding of the execution and risk components of the
`noticebot` trading bot:

* `PositionSizer` (`src/execution/PositionSizer.ts`)
* `OrderValidator` (`src/execution/OrderValidator.ts`)
* `ExecutionEngine` (`src/execution/ExecutionEngine.ts`)
* `BinanceOrderClient` (`src/execution/BinanceOrderClient.ts`)
* `RiskManager` (`src/risk/RiskManager.ts`)

Numbers are modelled by `ℚ`; JavaScript `Math.floor` becomes `Int.floor`
and `Number.prototype.toFixed` (round to `p` decimal places, ties away
from zero for the non-negative values appearing here) becomes rounding of
`x * 10^p` to the nearest integer.  Timestamps are `ℤ` milliseconds.
Fallible exchange calls are modelled by `Except String`; the event
emitter becomes an explicit list of emitted events; the mutable fields of
each class become explicit state records threaded through the functions.
Error message strings are modelled by tagged values carrying the
interpolated data.
-/

namespace Noticebot

/-- Embeds `'LONG' | 'SHORT'` from `src/types.ts`. -/
inductive SignalType
  | LONG
  | SHORT
  deriving DecidableEq, Repr

/-- Embeds `TradingSignal` from `src/types.ts`. -/
structure TradingSignal where
  type : SignalType
  symbol : String
  closePrice : ℚ
  bandValue : ℚ
  middleBand : ℚ
  bandwidth : ℚ
  timestamp : ℤ
  deriving DecidableEq, Repr

/-- Embeds `'BUY' | 'SELL'` from `src/execution/types.ts`. -/
inductive OrderSide
  | BUY
  | SELL
  deriving DecidableEq, Repr

/-- Position side `'LONG' | 'SHORT' | 'NONE'` from `src/execution/types.ts`. -/
inductive PositionSide
  | LONG
  | SHORT
  | NONE
  deriving DecidableEq, Repr

/-- Embeds `AccountBalance` from `src/execution/types.ts`. -/
structure AccountBalance where
  asset : String
  available : ℚ
  total : ℚ
  deriving DecidableEq, Repr

/-- Embeds `Position` from `src/execution/types.ts`. -/
structure Position where
  symbol : String
  side : PositionSide
  size : ℚ
  entryPrice : ℚ
  unrealizedPnl : ℚ
  leverage : ℚ
  deriving DecidableEq, Repr

/-- Embeds `SymbolInfo` from `src/execution/types.ts`. -/
structure SymbolInfo where
  symbol : String
  pricePrecision : ℕ
  quantityPrecision : ℕ
  minQty : ℚ
  maxQty : ℚ
  stepSize : ℚ
  minNotional : ℚ
  deriving DecidableEq, Repr

/-- Embeds `ExecutionEngineConfig` from `src/execution/types.ts`. -/
structure ExecutionEngineConfig where
  enabled : Bool
  testnet : Bool
  symbol : String
  leverage : ℚ
  positionSizePercent : ℚ
  takeProfitPercent : ℚ
  stopLossPercent : ℚ
  maxPositionSizeUsdt : ℚ
  minPositionSizeUsdt : ℚ
  retryAttempts : ℕ
  retryDelayMs : ℕ
  deriving Repr

/-- Rejection reasons produced by `PositionSizer.createInvalidResult`;
each constructor carries the data interpolated into the source's
message string. -/
inductive SizeReason
  | notionalBelowConfigMin (notional configMin : ℚ)
  | quantityBelowSymbolMin (quantity minQty : ℚ)
  | quantityAboveSymbolMax (quantity maxQty : ℚ)
  | notionalBelowSymbolMin (notional minNotional : ℚ)
  deriving DecidableEq, Repr

/-- Embeds `PositionSizeResult` from `src/execution/types.ts`. -/
structure PositionSizeResult where
  quantity : ℚ
  notionalValue : ℚ
  riskAmount : ℚ
  valid : Bool
  reason : Option SizeReason
  deriving DecidableEq, Repr

/-- JavaScript `x.toFixed(p)` followed by `parseFloat`: round `x` to
`p` decimal places (nearest, with the `round` convention on ties). -/
def toFixed (x : ℚ) (p : ℕ) : ℚ :=
  ((round (x * 10 ^ p) : ℤ) : ℚ) / 10 ^ p

namespace PositionSizer

/-- Embeds `PositionSizer.createInvalidResult`. -/
def createInvalidResult (reason : SizeReason) : PositionSizeResult :=
  { quantity := 0
    notionalValue := 0
    riskAmount := 0
    valid := false
    reason := some reason }

/-- Embeds `PositionSizer.adjustToPrecision`: floor to the nearest multiple of
`stepSize`, then apply `toFixed quantityPrecision`. -/
def adjustToPrecision (quantity : ℚ) (symbolInfo : SymbolInfo) : ℚ :=
  let steps : ℤ := ⌊quantity / symbolInfo.stepSize⌋
  let adjusted : ℚ := (steps : ℚ) * symbolInfo.stepSize
  toFixed adjusted symbolInfo.quantityPrecision

/-- Embeds `PositionSizer.calculatePositionSize`. -/
def calculatePositionSize (config : ExecutionEngineConfig)
    (balance : AccountBalance) (currentPrice : ℚ)
    (symbolInfo : SymbolInfo) : PositionSizeResult :=
  let riskAmount := balance.available * config.positionSizePercent
  let leveragedAmount := riskAmount * config.leverage
  let notionalValue := min leveragedAmount config.maxPositionSizeUsdt
  if notionalValue < config.minPositionSizeUsdt then
    createInvalidResult (.notionalBelowConfigMin notionalValue config.minPositionSizeUsdt)
  else
    let rawQuantity := notionalValue / currentPrice
    let quantity := adjustToPrecision rawQuantity symbolInfo
    if quantity < symbolInfo.minQty then
      createInvalidResult (.quantityBelowSymbolMin quantity symbolInfo.minQty)
    else if quantity > symbolInfo.maxQty then
      createInvalidResult (.quantityAboveSymbolMax quantity symbolInfo.maxQty)
    else
      let actualNotional := quantity * currentPrice
      if actualNotional < symbolInfo.minNotional then
        createInvalidResult (.notionalBelowSymbolMin actualNotional symbolInfo.minNotional)
      else
        { quantity := quantity
          notionalValue := actualNotional
          riskAmount := riskAmount
          valid := true
          reason := none }

/-- Embeds `PositionSizer.calculateTakeProfit`. -/
def calculateTakeProfit (config : ExecutionEngineConfig)
    (entryPrice : ℚ) (side : SignalType) : ℚ :=
  let multiplier :=
    if side = SignalType.LONG then 1 + config.takeProfitPercent
    else 1 - config.takeProfitPercent
  entryPrice * multiplier

/-- Embeds `PositionSizer.calculateStopLoss`. -/
def calculateStopLoss (config : ExecutionEngineConfig)
    (entryPrice : ℚ) (side : SignalType) : ℚ :=
  let multiplier :=
    if side = SignalType.LONG then 1 - config.stopLossPercent
    else 1 + config.stopLossPercent
  entryPrice * multiplier

/-- Embeds `PositionSizer.adjustPricePrecision`. -/
def adjustPricePrecision (price : ℚ) (symbolInfo : SymbolInfo) : ℚ :=
  toFixed price symbolInfo.pricePrecision

end PositionSizer

/-- Validation error messages from `OrderValidator.validate`; each
constructor carries the data interpolated into the message string. -/
inductive ValidationError
  | duplicateSignal
  | invalidPositionSize (reason : Option SizeReason)
  | notionalBelowMinimum (notional minNotional : ℚ)
  | quantityBelowMinimum (quantity minQty : ℚ)
  deriving DecidableEq, Repr

/-- Validation warning messages from `OrderValidator.validate`. -/
inductive ValidationWarning
  | existingPosition (side : PositionSide) (size : ℚ)
  deriving DecidableEq, Repr

/-- Embeds `ValidationResult` from `src/execution/types.ts`. -/
structure ValidationResult where
  valid : Bool
  errors : List ValidationError
  warnings : List ValidationWarning
  deriving DecidableEq, Repr

namespace OrderValidator

/-- The mutable fields of the `OrderValidator` class. -/
structure State where
  lastExecutedTimestamp : ℤ
  lastExecutedType : Option SignalType
  deriving DecidableEq, Repr

/-- Field initialisers of a freshly constructed `OrderValidator`:
`lastExecutedTimestamp = 0`, `lastExecutedType = null`. -/
def initialState : State :=
  { lastExecutedTimestamp := 0, lastExecutedType := none }

/-- Embeds `OrderValidator.isDuplicateSignal`. -/
def isDuplicateSignal (st : State) (signal : TradingSignal) : Bool :=
  let sameTimestamp : Bool := decide (signal.timestamp = st.lastExecutedTimestamp)
  let sameType : Bool := decide (some signal.type = st.lastExecutedType)
  sameTimestamp && sameType

/-- Embeds `OrderValidator.isConflictingPosition`. -/
def isConflictingPosition (signal : TradingSignal) (position : Position) : Bool :=
  let isLongSignalWithShortPosition : Bool :=
    decide (signal.type = SignalType.LONG) && decide (position.side = PositionSide.SHORT)
  let isShortSignalWithLongPosition : Bool :=
    decide (signal.type = SignalType.SHORT) && decide (position.side = PositionSide.LONG)
  isLongSignalWithShortPosition || isShortSignalWithLongPosition

/-- Embeds `OrderValidator.validate`: evaluates the duplicate check, the
size-result check, the existing-position check and the redundant
notional/quantity re-checks, accumulating errors and warnings. -/
def validate (st : State) (signal : TradingSignal) (currentPosition : Position)
    (positionSize : PositionSizeResult) (symbolInfo : SymbolInfo) :
    ValidationResult :=
  let errors : List ValidationError :=
    (if isDuplicateSignal st signal then [ValidationError.duplicateSignal] else []) ++
    (if !positionSize.valid then
      [ValidationError.invalidPositionSize positionSize.reason] else []) ++
    (if positionSize.valid && decide (positionSize.notionalValue < symbolInfo.minNotional) then
      [ValidationError.notionalBelowMinimum positionSize.notionalValue symbolInfo.minNotional]
     else []) ++
    (if positionSize.valid && decide (positionSize.quantity < symbolInfo.minQty) then
      [ValidationError.quantityBelowMinimum positionSize.quantity symbolInfo.minQty]
     else [])
  let warnings : List ValidationWarning :=
    if decide (currentPosition.side ≠ PositionSide.NONE) &&
        isConflictingPosition signal currentPosition then
      [ValidationWarning.existingPosition currentPosition.side currentPosition.size]
    else []
  { valid := errors.isEmpty
    errors := errors
    warnings := warnings }

/-- Embeds `OrderValidator.recordExecution`. -/
def recordExecution (st : State) (signal : TradingSignal) : State :=
  { st with
    lastExecutedTimestamp := signal.timestamp
    lastExecutedType := some signal.type }

/-- Embeds `OrderValidator.reset`. -/
def reset (_st : State) : State :=
  { lastExecutedTimestamp := 0, lastExecutedType := none }

end OrderValidator

/-- Embeds `OrderRequest` from `src/execution/types.ts` (the attached `signal`
field is threaded separately where needed). -/
structure OrderRequest where
  symbol : String
  side : OrderSide
  quantity : ℚ
  deriving DecidableEq, Repr

/-- Embeds `TpSlOrderRequest` from `src/execution/types.ts`. -/
structure TpSlOrderRequest where
  symbol : String
  side : OrderSide
  stopPrice : ℚ
  closePosition : Bool
  deriving DecidableEq, Repr

/-- Embeds `OrderResult` from `src/execution/types.ts`. -/
structure OrderResult where
  success : Bool
  orderId : Option ℕ
  executedQty : Option ℚ
  avgPrice : Option ℚ
  error : Option String
  timestamp : ℤ
  deriving DecidableEq, Repr

/-- The fields of a successful raw exchange response used by
`BinanceOrderClient.submitMarketOrder` (`result.orderId`,
`result.executedQty`, `result.avgPrice`). -/
structure RawFill where
  orderId : ℕ
  executedQty : ℚ
  avgPrice : ℚ
  deriving DecidableEq, Repr

namespace BinanceOrderClient

/-- Embeds `BinanceOrderClient.submitMarketOrder`: the underlying exchange call
either returns a fill or throws; both outcomes are caught and converted
into an `OrderResult`, so this function never throws. -/
def submitMarketOrder (_request : OrderRequest)
    (exchangeResponse : Except String RawFill) (now : ℤ) : OrderResult :=
  match exchangeResponse with
  | .ok fill =>
      { success := true
        orderId := some fill.orderId
        executedQty := some fill.executedQty
        avgPrice := some fill.avgPrice
        error := none
        timestamp := now }
  | .error msg =>
      { success := false
        orderId := none
        executedQty := none
        avgPrice := none
        error := some msg
        timestamp := now }

/-- Embeds `BinanceOrderClient.submitTakeProfitOrder`: catches any exchange
error and reports `success = false`; never throws. -/
def submitTakeProfitOrder (_request : TpSlOrderRequest)
    (exchangeResponse : Except String ℕ) (now : ℤ) : OrderResult :=
  match exchangeResponse with
  | .ok orderId =>
      { success := true
        orderId := some orderId
        executedQty := none
        avgPrice := none
        error := none
        timestamp := now }
  | .error msg =>
      { success := false
        orderId := none
        executedQty := none
        avgPrice := none
        error := some msg
        timestamp := now }

/-- Embeds `BinanceOrderClient.submitStopLossOrder`: catches any exchange
error and reports `success = false`; never throws. -/
def submitStopLossOrder (_request : TpSlOrderRequest)
    (exchangeResponse : Except String ℕ) (now : ℤ) : OrderResult :=
  match exchangeResponse with
  | .ok orderId =>
      { success := true
        orderId := some orderId
        executedQty := none
        avgPrice := none
        error := none
        timestamp := now }
  | .error msg =>
      { success := false
        orderId := none
        executedQty := none
        avgPrice := none
        error := some msg
        timestamp := now }

end BinanceOrderClient

/-- Embeds `ExecutionResult` from `src/execution/types.ts`. -/
structure ExecutionResult where
  signal : TradingSignal
  entryOrder : OrderResult
  takeProfitOrder : Option OrderResult
  stopLossOrder : Option OrderResult
  timestamp : ℤ
  deriving DecidableEq, Repr

/-- Payload of an `orderFailed` event; each constructor carries the data
interpolated into the source's reason string. -/
inductive FailReason
  | validationFailed (errors : List ValidationError)
  | entryFailed (error : Option String)
  | exception (message : String)
  deriving DecidableEq, Repr

/-- Events emitted by `ExecutionEngine` during `processSignal`. -/
inductive ExecEvent
  | orderExecuted (result : ExecutionResult)
  | orderFailed (signal : TradingSignal) (reason : FailReason)
  | errorEvent (message : String)
  deriving DecidableEq, Repr

/-- The four concurrently fetched inputs of `processSignal` step 1;
each call can reject, modelled by `Except`. -/
structure FetchEnv where
  balance : Except String AccountBalance
  position : Except String Position
  symbolInfo : Except String SymbolInfo
  markPrice : Except String ℚ

namespace ExecutionEngine

/-- Observable outcome of `ExecutionEngine.executeWithRetry`: the result
(`Except` models return vs. throw), how many times the operation was
invoked, and the durations of the sleeps between attempts, in order. -/
structure RetryOutcome (α : Type) where
  result : Except String α
  attemptsMade : ℕ
  sleeps : List ℕ
  deriving Repr

/-- The `for (let i = 1; i <= attempts; i++)` loop of
`executeWithRetry`; `i` is the current attempt number and the second
argument counts the remaining iterations (`attempts - i + 1`).  On
success the loop returns; on failure it sleeps `retryDelayMs * i` when
`i < attempts`; when the loop ends the last error is rethrown (with
zero configured attempts `lastError` is still `null`). -/
def retryLoop {α : Type} (operation : ℕ → Except String α)
    (retryDelayMs : ℕ) : ℕ → ℕ → RetryOutcome α
  | _i, 0 =>
      { result := .error "null", attemptsMade := 0, sleeps := [] }
  | i, remaining + 1 =>
      match operation i with
      | .ok v => { result := .ok v, attemptsMade := 1, sleeps := [] }
      | .error e =>
          if remaining = 0 then
            { result := .error e, attemptsMade := 1, sleeps := [] }
          else
            let rest := retryLoop operation retryDelayMs (i + 1) remaining
            { result := rest.result
              attemptsMade := rest.attemptsMade + 1
              sleeps := retryDelayMs * i :: rest.sleeps }

/-- Embeds `ExecutionEngine.executeWithRetry` with the default attempt budget
`config.retryAttempts` passed explicitly. -/
def executeWithRetry {α : Type} (operation : ℕ → Except String α)
    (retryDelayMs : ℕ) (attempts : ℕ) : RetryOutcome α :=
  retryLoop operation retryDelayMs 1 attempts

/-- First rejection among the four concurrent fetches of step 1
(`Promise.all` rejects with the error of a failed member). -/
def firstFetchError (env : FetchEnv) : Option String :=
  match env.balance with
  | .error e => some e
  | .ok _ =>
      match env.position with
      | .error e => some e
      | .ok _ =>
          match env.symbolInfo with
          | .error e => some e
          | .ok _ =>
              match env.markPrice with
              | .error e => some e
              | .ok _ => none

/-- Embeds `ExecutionEngine.processSignal`.  Inputs beyond the signal: the
engine's readiness flag and config, the validator's state, the outcomes
of the four fetches, the exchange's response to the `i`-th entry-order
attempt, and the exchange's responses to the TP and SL submissions.
Returns the new validator state and the emitted events, in order. -/
def processSignal (config : ExecutionEngineConfig) (isReady : Bool)
    (vst : OrderValidator.State) (signal : TradingSignal) (env : FetchEnv)
    (entryExchange : ℕ → Except String RawFill)
    (tpExchange slExchange : Except String ℕ) (now : ℤ) :
    OrderValidator.State × List ExecEvent :=
  if !isReady || !config.enabled then (vst, [])
  else
    match env.balance, env.position, env.symbolInfo, env.markPrice with
    | .ok balance, .ok position, .ok symbolInfo, .ok markPrice =>
        let positionSize :=
          PositionSizer.calculatePositionSize config balance markPrice symbolInfo
        let validation :=
          OrderValidator.validate vst signal position positionSize symbolInfo
        if !validation.valid then
          (vst, [ExecEvent.orderFailed signal (.validationFailed validation.errors)])
        else
          let entrySide :=
            if signal.type = SignalType.LONG then OrderSide.BUY else OrderSide.SELL
          let retry := executeWithRetry
            (fun i => Except.ok (BinanceOrderClient.submitMarketOrder
              { symbol := signal.symbol, side := entrySide,
                quantity := positionSize.quantity }
              (entryExchange i) now))
            config.retryDelayMs config.retryAttempts
          match retry.result with
          | .error e =>
              (vst, [ExecEvent.orderFailed signal (.exception e),
                     ExecEvent.errorEvent e])
          | .ok entryOrder =>
              if !entryOrder.success then
                (vst, [ExecEvent.orderFailed signal (.entryFailed entryOrder.error)])
              else
                let entryPrice := entryOrder.avgPrice.getD 0
                let tpPrice :=
                  PositionSizer.calculateTakeProfit config entryPrice signal.type
                let slPrice :=
                  PositionSizer.calculateStopLoss config entryPrice signal.type
                let exitSide :=
                  if signal.type = SignalType.LONG then OrderSide.SELL else OrderSide.BUY
                let tpOrder := BinanceOrderClient.submitTakeProfitOrder
                  { symbol := signal.symbol, side := exitSide,
                    stopPrice := PositionSizer.adjustPricePrecision tpPrice symbolInfo,
                    closePosition := true } tpExchange now
                let slOrder := BinanceOrderClient.submitStopLossOrder
                  { symbol := signal.symbol, side := exitSide,
                    stopPrice := PositionSizer.adjustPricePrecision slPrice symbolInfo,
                    closePosition := true } slExchange now
                let vst2 := OrderValidator.recordExecution vst signal
                (vst2, [ExecEvent.orderExecuted
                  { signal := signal, entryOrder := entryOrder,
                    takeProfitOrder := some tpOrder,
                    stopLossOrder := some slOrder, timestamp := now }])
    | _, _, _, _ =>
        let msg := (firstFetchError env).getD ""
        (vst, [ExecEvent.orderFailed signal (.exception msg),
               ExecEvent.errorEvent msg])

end ExecutionEngine

/-- Embeds `RiskManagerConfig` from `src/risk/types.ts`. -/
structure RiskManagerConfig where
  enabled : Bool
  dailyLossLimitUsdt : ℚ
  maxDrawdownPercent : ℚ
  autoCloseOnBreach : Bool
  checkIntervalMs : ℕ
  symbol : String
  deriving Repr

/-- Embeds `RiskStatus` from `src/risk/types.ts`. -/
structure RiskStatus where
  dailyPnl : ℚ
  dailyLossRemaining : ℚ
  peakBalance : ℚ
  currentBalance : ℚ
  currentDrawdown : ℚ
  isDailyLimitBreached : Bool
  isDrawdownBreached : Bool
  isTradingAllowed : Bool
  lastCheck : ℤ
  deriving DecidableEq, Repr

/-- Embeds `'daily_loss' | 'max_drawdown'` from `src/risk/types.ts`. -/
inductive BreachType
  | daily_loss
  | max_drawdown
  deriving DecidableEq, Repr

/-- Embeds `RiskBreach` from `src/risk/types.ts`. -/
structure RiskBreach where
  type : BreachType
  currentValue : ℚ
  threshold : ℚ
  autoCloseTriggered : Bool
  timestamp : ℤ
  deriving DecidableEq, Repr

/-- Embeds `DailyStats` from `src/risk/types.ts`. -/
structure DailyStats where
  startBalance : ℚ
  dayStart : ℤ
  realizedPnl : ℚ
  tradeCount : ℕ
  deriving DecidableEq, Repr

/-- Reason strings passed to the `tradingBlocked` event. -/
inductive BlockReason
  | dailyLossLimitExceeded
  | maximumDrawdownExceeded
  deriving DecidableEq, Repr

/-- Events emitted by `RiskManager` (`RiskManagerEvents`). -/
inductive RiskEvent
  | riskBreach (breach : RiskBreach)
  | statusChanged (status : RiskStatus)
  | tradingBlocked (reason : BlockReason)
  | tradingResumed
  | errorEvent (message : String)
  deriving DecidableEq, Repr

/-- Exchange calls issued by `RiskManager.closeAllPositions`, in
issue order. -/
inductive ExchangeAction
  | cancelAllOrders (symbol : String)
  | submitMarketOrder (symbol : String) (side : OrderSide) (quantity : ℚ)
  deriving DecidableEq, Repr

namespace RiskManager

/-- Embeds `RiskManager.PNL_CHANGE_THRESHOLD_USDT` (0.01 USDT). -/
def PNL_CHANGE_THRESHOLD_USDT : ℚ := 1 / 100

/-- Embeds `RiskManager.DRAWDOWN_CHANGE_THRESHOLD` (0.001). -/
def DRAWDOWN_CHANGE_THRESHOLD : ℚ := 1 / 1000

/-- The mutable fields of the `RiskManager` class touched by a check. -/
structure State where
  dailyStats : DailyStats
  peakBalance : ℚ
  currentStatus : Option RiskStatus
  tradingAllowed : Bool
  deriving DecidableEq, Repr

/-- Embeds `RiskManager.getUtcDayStart`: UTC midnight of the day containing
`timestamp` (`date.setUTCHours(0,0,0,0)`), in ms. -/
def getUtcDayStart (timestamp : ℤ) : ℤ :=
  86400000 * (timestamp / 86400000)

/-- Embeds `RiskManager.createNewDayStats`. -/
def createNewDayStats (startBalance : ℚ) (now : ℤ) : DailyStats :=
  { startBalance := startBalance
    dayStart := getUtcDayStart now
    realizedPnl := 0
    tradeCount := 0 }

/-- Embeds `RiskManager.checkDayRollover`: on a UTC-day rollover, reset the
daily stats from the last snapshot's balance (`?.currentBalance || 0`)
and resume trading when blocked, a snapshot exists and its drawdown
flag is clear. -/
def checkDayRollover (st : State) (now : ℤ) : State × List RiskEvent :=
  let todayStart := getUtcDayStart now
  if todayStart > st.dailyStats.dayStart then
    let newStats :=
      createNewDayStats ((st.currentStatus.map RiskStatus.currentBalance).getD 0) now
    let resume : Bool :=
      !st.tradingAllowed && st.currentStatus.isSome &&
        !((st.currentStatus.map RiskStatus.isDrawdownBreached).getD false)
    ({ st with
        dailyStats := newStats
        tradingAllowed := st.tradingAllowed || resume },
     if resume then [RiskEvent.tradingResumed] else [])
  else (st, [])

/-- Embeds `RiskManager.closeAllPositions`: cancel all open orders for the
configured symbol, then query the position; if one is open
(`side !== 'NONE' && size > 0`) submit an opposite-side market order for
its full size.  A failing position query is caught and surfaced as an
error event (the cancellation has already been issued). -/
def closeAllPositions (config : RiskManagerConfig)
    (position : Except String Position) :
    List ExchangeAction × List RiskEvent :=
  match position with
  | .error e =>
      ([ExchangeAction.cancelAllOrders config.symbol], [RiskEvent.errorEvent e])
  | .ok position =>
      let hasOpenPosition : Bool :=
        decide (position.side ≠ PositionSide.NONE) && decide (position.size > 0)
      let closeActions :=
        if hasOpenPosition then
          let closeSide :=
            if position.side = PositionSide.LONG then OrderSide.SELL else OrderSide.BUY
          [ExchangeAction.submitMarketOrder config.symbol closeSide position.size]
        else []
      (ExchangeAction.cancelAllOrders config.symbol :: closeActions, [])

/-- Embeds `RiskManager.handleBreaches`: sequentially handle a daily-loss
breach, a drawdown breach, and resumption; each breach branch fires
only while `tradingAllowed` still holds, blocks trading, emits
`riskBreach` and `tradingBlocked`, and triggers liquidation when
`autoCloseOnBreach` is set.  Returns the new `tradingAllowed` flag, the
emitted events and the issued exchange actions. -/
def handleBreaches (config : RiskManagerConfig) (status : RiskStatus)
    (isDailyLimitBreached isDrawdownBreached : Bool) (tradingAllowed : Bool)
    (position : Except String Position) (now : ℤ) :
    Bool × List RiskEvent × List ExchangeAction :=
  let step1 : Bool × List RiskEvent × List ExchangeAction :=
    if isDailyLimitBreached && tradingAllowed then
      let breach : RiskBreach :=
        { type := BreachType.daily_loss
          currentValue := |status.dailyPnl|
          threshold := config.dailyLossLimitUsdt
          autoCloseTriggered := config.autoCloseOnBreach
          timestamp := now }
      let close :=
        if config.autoCloseOnBreach then closeAllPositions config position
        else ([], [])
      (false,
       [RiskEvent.riskBreach breach,
        RiskEvent.tradingBlocked BlockReason.dailyLossLimitExceeded] ++ close.2,
       close.1)
    else (tradingAllowed, [], [])
  let step2 : Bool × List RiskEvent × List ExchangeAction :=
    if isDrawdownBreached && step1.1 then
      let breach : RiskBreach :=
        { type := BreachType.max_drawdown
          currentValue := status.currentDrawdown * 100
          threshold := config.maxDrawdownPercent * 100
          autoCloseTriggered := config.autoCloseOnBreach
          timestamp := now }
      let close :=
        if config.autoCloseOnBreach then closeAllPositions config position
        else ([], [])
      (false,
       [RiskEvent.riskBreach breach,
        RiskEvent.tradingBlocked BlockReason.maximumDrawdownExceeded] ++ close.2,
       close.1)
    else (step1.1, [], [])
  let step3 : Bool × List RiskEvent :=
    if !isDailyLimitBreached && !isDrawdownBreached && !step2.1 then
      (true, [RiskEvent.tradingResumed])
    else (step2.1, [])
  (step3.1, step1.2.1 ++ step2.2.1 ++ step3.2, step1.2.2 ++ step2.2.2)

/-- Embeds `RiskManager.hasStatusChanged`. -/
def hasStatusChanged (current : Option RiskStatus) (newStatus : RiskStatus) : Bool :=
  match current with
  | none => true
  | some c =>
      decide (c.isDailyLimitBreached ≠ newStatus.isDailyLimitBreached) ||
      decide (c.isDrawdownBreached ≠ newStatus.isDrawdownBreached) ||
      decide (c.isTradingAllowed ≠ newStatus.isTradingAllowed) ||
      decide (|c.dailyPnl - newStatus.dailyPnl| > PNL_CHANGE_THRESHOLD_USDT) ||
      decide (|c.currentDrawdown - newStatus.currentDrawdown| > DRAWDOWN_CHANGE_THRESHOLD)

/-- The metric and snapshot computation inside
`RiskManager.checkRiskLimits` (peak ratchet, `dailyPnl`,
`dailyLossRemaining`, `currentDrawdown`, breach flags, the built
`RiskStatus`). -/
def computeStatus (config : RiskManagerConfig) (stats : DailyStats)
    (peakBalance : ℚ) (currentBalance : ℚ) (now : ℤ) : RiskStatus :=
  let peak := if currentBalance > peakBalance then currentBalance else peakBalance
  let dailyPnl := currentBalance - stats.startBalance + stats.realizedPnl
  let dailyLossRemaining := config.dailyLossLimitUsdt + dailyPnl
  let currentDrawdown := if peak > 0 then (peak - currentBalance) / peak else 0
  let isDailyLimitBreached : Bool := decide (dailyPnl < -config.dailyLossLimitUsdt)
  let isDrawdownBreached : Bool := decide (currentDrawdown > config.maxDrawdownPercent)
  { dailyPnl := dailyPnl
    dailyLossRemaining := max 0 dailyLossRemaining
    peakBalance := peak
    currentBalance := currentBalance
    currentDrawdown := currentDrawdown
    isDailyLimitBreached := isDailyLimitBreached
    isDrawdownBreached := isDrawdownBreached
    isTradingAllowed := !isDailyLimitBreached && !isDrawdownBreached
    lastCheck := now }

/-- Result of one `RiskManager.checkRiskLimits` invocation: the new
mutable state, the emitted events in order, and the exchange actions
issued by liquidation. -/
structure CheckResult where
  state : State
  events : List RiskEvent
  actions : List ExchangeAction
  deriving Repr

/-- Embeds `RiskManager.checkRiskLimits`: roll the day over first; on a
successful balance query compute the snapshot, handle breaches, then
publish the snapshot and emit `statusChanged` if it moved; on a failed
query the `catch` block only emits an error event. -/
def checkRiskLimits (config : RiskManagerConfig) (st : State) (now : ℤ)
    (balanceResult : Except String AccountBalance)
    (position : Except String Position) : CheckResult :=
  let rolled := checkDayRollover st now
  let st1 := rolled.1
  match balanceResult with
  | .error e =>
      { state := st1
        events := rolled.2 ++ [RiskEvent.errorEvent e]
        actions := [] }
  | .ok balance =>
      let currentBalance := balance.total
      let status := computeStatus config st1.dailyStats st1.peakBalance currentBalance now
      let handled := handleBreaches config status status.isDailyLimitBreached
        status.isDrawdownBreached st1.tradingAllowed position now
      let statusChanged := hasStatusChanged st1.currentStatus status
      { state :=
          { st1 with
            peakBalance := status.peakBalance
            currentStatus := some status
            tradingAllowed := handled.1 }
        events := rolled.2 ++ handled.2.1 ++
          (if statusChanged then [RiskEvent.statusChanged status] else [])
        actions := handled.2.2 }

end RiskManager

/-! ## Helper lemmas -/

/-- Embeds `toFixed` leaves a value alone when it already has at most `p`
decimal places. -/
theorem toFixed_eq_self (x : ℚ) (p : ℕ) (h : ∃ n : ℤ, x * 10 ^ p = (n : ℚ)) :
    toFixed x p = x := by
  obtain ⟨n, hn⟩ := h
  unfold toFixed
  rw [hn, round_intCast]
  have h10 : ((10 : ℚ)) ^ p ≠ 0 := by positivity
  rw [div_eq_iff h10]
  exact hn.symm

/-- When `stepSize` is an integer multiple of `10 ^ -quantityPrecision`,
the `toFixed` at the end of `adjustToPrecision` is the identity and the
adjustment is exactly the floored multiple of `stepSize`. -/
theorem adjustToPrecision_eq_of_aligned (q : ℚ) (si : SymbolInfo)
    (halign : ∃ m : ℤ, si.stepSize * 10 ^ si.quantityPrecision = (m : ℚ)) :
    PositionSizer.adjustToPrecision q si =
      (⌊q / si.stepSize⌋ : ℚ) * si.stepSize := by
  obtain ⟨m, hm⟩ := halign
  unfold PositionSizer.adjustToPrecision
  apply toFixed_eq_self
  exact ⟨⌊q / si.stepSize⌋ * m, by push_cast [mul_assoc, hm]; ring⟩

/-! ## C6 -/

/-- Claim **C6 (as stated, refuted)**: the quantity adjustment can round up.
With `stepSize = 1/40 = 0.025` and `quantityPrecision = 2`, the raw
quantity `0.025` is floored to one step (`0.025`) and then
`toFixed(2)` rounds it up to `0.03`, which exceeds the raw quantity
(the double `0.025` also rounds up under JavaScript `toFixed(2)`). -/
theorem adjustToPrecision_rounds_up_cex :
    (0 : ℚ) < 1/40 ∧
    (1/40 : ℚ) < PositionSizer.adjustToPrecision (1/40)
      { symbol := "BTCUSDT", pricePrecision := 2, quantityPrecision := 2,
        minQty := 0, maxQty := 1000, stepSize := 1/40, minNotional := 5 } := by
  have h : PositionSizer.adjustToPrecision (1/40)
      { symbol := "BTCUSDT", pricePrecision := 2, quantityPrecision := 2,
        minQty := 0, maxQty := 1000, stepSize := 1/40, minNotional := 5 } = 3/100 := by
    norm_num [PositionSizer.adjustToPrecision, toFixed, round_eq]
  rw [h]
  norm_num

/-- Claim **C6 (amended)**: provided `stepSize` is itself an integer multiple
of `10 ^ -quantityPrecision` (so the final `toFixed` cannot move the
value), the adjusted quantity never exceeds the raw quantity. -/
theorem adjustToPrecision_never_rounds_up (q : ℚ) (si : SymbolInfo)
    (hstep : 0 < si.stepSize)
    (halign : ∃ m : ℤ, si.stepSize * 10 ^ si.quantityPrecision = (m : ℚ)) :
    PositionSizer.adjustToPrecision q si ≤ q := by
  rw [adjustToPrecision_eq_of_aligned q si halign]
  calc (⌊q / si.stepSize⌋ : ℚ) * si.stepSize
      ≤ (q / si.stepSize) * si.stepSize :=
        mul_le_mul_of_nonneg_right (Int.floor_le _) hstep.le
    _ = q := div_mul_cancel₀ q hstep.ne'

/-- Witness for `adjustToPrecision_never_rounds_up` at
`q = 7/9`, `stepSize = 1/1000`, `quantityPrecision = 3`. -/
theorem adjustToPrecision_never_rounds_up_witness :
    (0 : ℚ) < 1/1000 ∧
    (∃ m : ℤ, (1/1000 : ℚ) * 10 ^ 3 = (m : ℚ)) ∧
    PositionSizer.adjustToPrecision (7/9)
      { symbol := "BTCUSDT", pricePrecision := 2, quantityPrecision := 3,
        minQty := 0, maxQty := 1000, stepSize := 1/1000, minNotional := 5 } ≤ 7/9 :=
  ⟨by norm_num, ⟨1, by norm_num⟩,
   adjustToPrecision_never_rounds_up (7/9) _ (by norm_num) ⟨1, by norm_num⟩⟩

/-! ## C1 -/

/-- Concrete sizing scenario with a step size (`0.03`) that is not a
multiple of `10 ^ -quantityPrecision` (`0.1`): the raw quantity `0.1`
floors to three steps (`0.09`) and `toFixed(1)` rounds that back up to
`0.1`, which is not a multiple of the step size. -/
def misalignedConfig : ExecutionEngineConfig :=
  { enabled := true, testnet := false, symbol := "BTCUSDT", leverage := 1,
    positionSizePercent := 1/10, takeProfitPercent := 1/50, stopLossPercent := 1/100,
    maxPositionSizeUsdt := 10000, minPositionSizeUsdt := 10,
    retryAttempts := 3, retryDelayMs := 1000 }

/-- Balance for the misaligned sizing scenario. -/
def misalignedBalance : AccountBalance :=
  { asset := "USDT", available := 1000, total := 1000 }

/-- Symbol rules for the misaligned sizing scenario:
`stepSize = 3/100`, `quantityPrecision = 1`. -/
def misalignedRules : SymbolInfo :=
  { symbol := "BTCUSDT", pricePrecision := 2, quantityPrecision := 1,
    minQty := 1/100, maxQty := 1000, stepSize := 3/100, minNotional := 5 }

/-- Claim **C1 (as stated, refuted)**: with `stepSize = 0.03 > 0`, mark price
`1000 > 0`, the sizer returns a `valid = true` result whose quantity
`0.1` is not an exact multiple of the step size. -/
theorem calculatePositionSize_multiple_cex :
    (0 : ℚ) < misalignedRules.stepSize ∧ (0 : ℚ) < 1000 ∧
    (PositionSizer.calculatePositionSize misalignedConfig misalignedBalance 1000
      misalignedRules).valid = true ∧
    ¬ ∃ k : ℤ, (PositionSizer.calculatePositionSize misalignedConfig misalignedBalance 1000
      misalignedRules).quantity = (k : ℚ) * misalignedRules.stepSize := by
  have hq : PositionSizer.calculatePositionSize misalignedConfig misalignedBalance 1000
      misalignedRules =
      { quantity := 1/10, notionalValue := 100, riskAmount := 100,
        valid := true, reason := none } := by
    norm_num [PositionSizer.calculatePositionSize, PositionSizer.adjustToPrecision,
      PositionSizer.createInvalidResult, toFixed, round_eq,
      misalignedConfig, misalignedBalance, misalignedRules]
  refine ⟨by norm_num [misalignedRules], by norm_num, by rw [hq], ?_⟩
  rintro ⟨k, hk⟩
  rw [hq] at hk
  simp only [misalignedRules] at hk
  have hk10 : (10 : ℚ) = 3 * (k : ℚ) := by
    field_simp at hk
    linarith
  have hkz : (10 : ℤ) = 3 * k := by exact_mod_cast hk10
  omega

/-- Claim **C1 (amended)**: for every balance, mark price `> 0` and symbol
rules with `stepSize > 0` such that `stepSize` is additionally an
integer multiple of `10 ^ -quantityPrecision` (true of real exchange
lot filters), a `valid = true` result's quantity is an exact multiple
of `stepSize`, lies within `[minQty, maxQty]`, and its notional
`quantity * markPrice` is at least `minNotional`. -/
theorem calculatePositionSize_valid_spec (config : ExecutionEngineConfig)
    (balance : AccountBalance) (markPrice : ℚ) (symbolInfo : SymbolInfo)
    (hstep : 0 < symbolInfo.stepSize) (hprice : 0 < markPrice)
    (halign : ∃ m : ℤ, symbolInfo.stepSize * 10 ^ symbolInfo.quantityPrecision = (m : ℚ))
    (hvalid : (PositionSizer.calculatePositionSize config balance markPrice
      symbolInfo).valid = true) :
    (∃ k : ℤ, (PositionSizer.calculatePositionSize config balance markPrice
        symbolInfo).quantity = (k : ℚ) * symbolInfo.stepSize) ∧
    symbolInfo.minQty ≤ (PositionSizer.calculatePositionSize config balance markPrice
        symbolInfo).quantity ∧
    (PositionSizer.calculatePositionSize config balance markPrice
        symbolInfo).quantity ≤ symbolInfo.maxQty ∧
    symbolInfo.minNotional ≤ (PositionSizer.calculatePositionSize config balance markPrice
        symbolInfo).quantity * markPrice := by
  simp only [PositionSizer.calculatePositionSize] at hvalid ⊢
  split_ifs at hvalid ⊢ with h1 h2 h3 h4
  · exact absurd hvalid (by simp [PositionSizer.createInvalidResult])
  · exact absurd hvalid (by simp [PositionSizer.createInvalidResult])
  · exact absurd hvalid (by simp [PositionSizer.createInvalidResult])
  · exact absurd hvalid (by simp [PositionSizer.createInvalidResult])
  · push_neg at h2 h3 h4
    exact ⟨⟨_, adjustToPrecision_eq_of_aligned _ symbolInfo halign⟩, h2, h3, h4⟩

/-- Witness for `calculatePositionSize_valid_spec` at the spec's §8
scenario: balance 1000, 10% sizing, 10× leverage, mark price 50000,
`stepSize = 0.001`, `quantityPrecision = 3` — quantity `0.02`. -/
theorem calculatePositionSize_valid_spec_witness :
    (0 : ℚ) < 1/1000 ∧ (0 : ℚ) < 50000 ∧
    (∃ m : ℤ, (1/1000 : ℚ) * 10 ^ 3 = (m : ℚ)) ∧
    (PositionSizer.calculatePositionSize
      { enabled := true, testnet := false, symbol := "BTCUSDT", leverage := 10,
        positionSizePercent := 1/10, takeProfitPercent := 1/50, stopLossPercent := 1/100,
        maxPositionSizeUsdt := 10000, minPositionSizeUsdt := 10,
        retryAttempts := 3, retryDelayMs := 1000 }
      { asset := "USDT", available := 1000, total := 1000 } 50000
      { symbol := "BTCUSDT", pricePrecision := 2, quantityPrecision := 3,
        minQty := 1/1000, maxQty := 1000, stepSize := 1/1000, minNotional := 5 }).valid
      = true ∧
    (∃ k : ℤ, (PositionSizer.calculatePositionSize
      { enabled := true, testnet := false, symbol := "BTCUSDT", leverage := 10,
        positionSizePercent := 1/10, takeProfitPercent := 1/50, stopLossPercent := 1/100,
        maxPositionSizeUsdt := 10000, minPositionSizeUsdt := 10,
        retryAttempts := 3, retryDelayMs := 1000 }
      { asset := "USDT", available := 1000, total := 1000 } 50000
      { symbol := "BTCUSDT", pricePrecision := 2, quantityPrecision := 3,
        minQty := 1/1000, maxQty := 1000, stepSize := 1/1000, minNotional := 5 }).quantity
        = (k : ℚ) * (1/1000)) := by
  have hvalid : (PositionSizer.calculatePositionSize
      { enabled := true, testnet := false, symbol := "BTCUSDT", leverage := 10,
        positionSizePercent := 1/10, takeProfitPercent := 1/50, stopLossPercent := 1/100,
        maxPositionSizeUsdt := 10000, minPositionSizeUsdt := 10,
        retryAttempts := 3, retryDelayMs := 1000 }
      { asset := "USDT", available := 1000, total := 1000 } 50000
      { symbol := "BTCUSDT", pricePrecision := 2, quantityPrecision := 3,
        minQty := 1/1000, maxQty := 1000, stepSize := 1/1000, minNotional := 5 }).valid
      = true := by
    norm_num [PositionSizer.calculatePositionSize, PositionSizer.adjustToPrecision,
      PositionSizer.createInvalidResult, toFixed, round_eq]
  have h := calculatePositionSize_valid_spec _ _ _ _
    (by norm_num) (by norm_num) ⟨1, by norm_num⟩ hvalid
  exact ⟨by norm_num, by norm_num, ⟨1, by norm_num⟩, hvalid, h.1⟩

/-! ## C7 -/

/-- Claim **C7 (as stated, refuted)**: the redundant notional/quantity
re-checks are guarded by `positionSize.valid`; when the size result is
invalid (carrying `quantity = 0`, `notionalValue = 0`, both strictly
below the symbol minimums `minNotional = 5` and `minQty = 0.01`), the
error list contains only the invalid-size error — the violated
re-checks report nothing, so they are not independent of rule 2. -/
theorem validate_redundant_checks_cex :
    ((0 : ℚ) < 5) ∧ ((0 : ℚ) < 1/100) ∧
    (OrderValidator.validate OrderValidator.initialState
      { type := SignalType.LONG, symbol := "BTCUSDT", closePrice := 100,
        bandValue := 95, middleBand := 100, bandwidth := 1/10,
        timestamp := 1700000000000 }
      { symbol := "BTCUSDT", side := PositionSide.NONE, size := 0,
        entryPrice := 0, unrealizedPnl := 0, leverage := 1 }
      { quantity := 0, notionalValue := 0, riskAmount := 0, valid := false,
        reason := some (SizeReason.notionalBelowConfigMin 2 10) }
      { symbol := "BTCUSDT", pricePrecision := 2, quantityPrecision := 3,
        minQty := 1/100, maxQty := 1000, stepSize := 1/1000, minNotional := 5 }).errors
      = [ValidationError.invalidPositionSize
          (some (SizeReason.notionalBelowConfigMin 2 10))] := by
  refine ⟨by norm_num, by norm_num, ?_⟩
  norm_num [OrderValidator.validate, OrderValidator.isDuplicateSignal,
    OrderValidator.initialState]

/-- Claim **C7 (amended)**: the four rules accumulate without
short-circuiting — each error is present if and only if its own
condition fires — but the two redundant re-checks fire only when
`sizeResult.valid` is true; when the size result is invalid, rule 2
reports instead and the re-checks are skipped. -/
theorem validate_error_accumulation (st : OrderValidator.State)
    (signal : TradingSignal) (position : Position)
    (ps : PositionSizeResult) (si : SymbolInfo) :
    ((OrderValidator.isDuplicateSignal st signal = true) ↔
      ValidationError.duplicateSignal ∈
        (OrderValidator.validate st signal position ps si).errors) ∧
    ((ps.valid = false) ↔
      ValidationError.invalidPositionSize ps.reason ∈
        (OrderValidator.validate st signal position ps si).errors) ∧
    ((ps.valid = true ∧ ps.notionalValue < si.minNotional) ↔
      ValidationError.notionalBelowMinimum ps.notionalValue si.minNotional ∈
        (OrderValidator.validate st signal position ps si).errors) ∧
    ((ps.valid = true ∧ ps.quantity < si.minQty) ↔
      ValidationError.quantityBelowMinimum ps.quantity si.minQty ∈
        (OrderValidator.validate st signal position ps si).errors) ∧
    ((OrderValidator.validate st signal position ps si).valid = true ↔
      (OrderValidator.validate st signal position ps si).errors = []) := by
  unfold OrderValidator.validate
  split_ifs <;> simp_all

/-! ## C10 -/

/-- Claim **C10 (confirmed)**: `reset` restores the initial dedup state, and
from the initial state (`lastExecutedTimestamp = 0`,
`lastExecutedType = null`) `validate` never reports the
duplicate-signal error for any signal — the type comparison against
`null` always fails, even when the signal's timestamp equals 0. -/
theorem fresh_validator_never_duplicate :
    (∀ st : OrderValidator.State,
      OrderValidator.reset st = OrderValidator.initialState) ∧
    ∀ (signal : TradingSignal) (position : Position)
      (ps : PositionSizeResult) (si : SymbolInfo),
      ValidationError.duplicateSignal ∉
        (OrderValidator.validate OrderValidator.initialState
          signal position ps si).errors := by
  refine ⟨fun st => rfl, fun signal position ps si => ?_⟩
  have hdup : OrderValidator.isDuplicateSignal OrderValidator.initialState signal
      = false := by
    simp [OrderValidator.isDuplicateSignal, OrderValidator.initialState]
  simp only [OrderValidator.validate, hdup]
  split_ifs <;> simp_all

/-! ## C2 -/

/-- If the `i`-th invocation of the operation succeeds, the retry loop
returns its value after a single attempt with no sleeping. -/
theorem retryLoop_first_ok {α : Type} (op : ℕ → Except String α) (d i n : ℕ)
    (v : α) (hop : op i = .ok v) :
    ExecutionEngine.retryLoop op d i (n + 1) =
      { result := .ok v, attemptsMade := 1, sleeps := [] } := by
  unfold ExecutionEngine.retryLoop
  rw [hop]

/-- An operation whose first invocation succeeds is run exactly once by
`executeWithRetry` (for any positive attempt budget). -/
theorem executeWithRetry_of_ok_op {α : Type} (op : ℕ → Except String α)
    (d attempts : ℕ) (h : 1 ≤ attempts) (v : α) (hop : op 1 = .ok v) :
    ExecutionEngine.executeWithRetry op d attempts =
      { result := .ok v, attemptsMade := 1, sleeps := [] } := by
  obtain ⟨n, hn⟩ : ∃ n, attempts = n + 1 := ⟨attempts - 1, by omega⟩
  subst hn
  exact retryLoop_first_ok op d 1 n v hop

/-- Claim **C2 (code bug)**: the operation that `processSignal` wraps in
`executeWithRetry` is `submitMarketOrder`, which catches every exchange
error and resolves with `success = false` instead of throwing.  Hence
for every sequence of exchange outcomes — even a transient error on
every attempt — the wrapper performs exactly one attempt and never
sleeps, so a failed entry aborts the signal immediately rather than
after `retryAttempts` attempts with `retryDelayMs * i` sleeps. -/
theorem entry_submission_never_retries (request : OrderRequest)
    (entryExchange : ℕ → Except String RawFill)
    (retryDelayMs attempts : ℕ) (now : ℤ)
    (hattempts : 1 ≤ attempts) :
    ExecutionEngine.executeWithRetry
      (fun i => Except.ok (BinanceOrderClient.submitMarketOrder request
        (entryExchange i) now))
      retryDelayMs attempts =
    { result := .ok (BinanceOrderClient.submitMarketOrder request
        (entryExchange 1) now),
      attemptsMade := 1, sleeps := [] } :=
  executeWithRetry_of_ok_op _ retryDelayMs attempts hattempts _ rfl

/-- Witness for `entry_submission_never_retries`: an exchange that
rejects every attempt with a transient disconnect, attempt budget 3 —
the composed submission still makes one attempt, never sleeps, and the
entry result reports `success = false`. -/
theorem entry_submission_never_retries_witness :
    1 ≤ 3 ∧
    ExecutionEngine.executeWithRetry
      (fun i => Except.ok (BinanceOrderClient.submitMarketOrder
        { symbol := "BTCUSDT", side := OrderSide.BUY, quantity := 1/50 }
        ((fun _ => Except.error "Binance Error -1001: DISCONNECTED") i)
        1700000000000))
      1000 3 =
    { result := .ok (BinanceOrderClient.submitMarketOrder
        { symbol := "BTCUSDT", side := OrderSide.BUY, quantity := 1/50 }
        (Except.error "Binance Error -1001: DISCONNECTED") 1700000000000),
      attemptsMade := 1, sleeps := [] } ∧
    (BinanceOrderClient.submitMarketOrder
      { symbol := "BTCUSDT", side := OrderSide.BUY, quantity := 1/50 }
      (Except.error "Binance Error -1001: DISCONNECTED") 1700000000000).success
      = false :=
  ⟨by norm_num,
   entry_submission_never_retries
     { symbol := "BTCUSDT", side := OrderSide.BUY, quantity := 1/50 }
     (fun _ => Except.error "Binance Error -1001: DISCONNECTED")
     1000 3 1700000000000 (by norm_num),
   rfl⟩

/-! ## C9 -/

/-- Claim **C9 (confirmed)**: whenever the entry order reports success (the
exchange accepts the first attempt), `processSignal` records the signal
in the validator's dedup memory and emits exactly one `orderExecuted`
event carrying the exit-order results — for every outcome of the TP and
SL submissions, including both failing, since those submissions catch
their errors and cannot derail the success path. -/
theorem processSignal_entry_success_reports_once
    (config : ExecutionEngineConfig) (vst : OrderValidator.State)
    (signal : TradingSignal) (balance : AccountBalance) (position : Position)
    (symbolInfo : SymbolInfo) (markPrice : ℚ)
    (entryExchange : ℕ → Except String RawFill)
    (tpExchange slExchange : Except String ℕ) (now : ℤ) (fill : RawFill)
    (henabled : config.enabled = true)
    (hattempts : 1 ≤ config.retryAttempts)
    (hvalid : (OrderValidator.validate vst signal position
      (PositionSizer.calculatePositionSize config balance markPrice symbolInfo)
      symbolInfo).valid = true)
    (hentry : entryExchange 1 = Except.ok fill) :
    (ExecutionEngine.processSignal config true vst signal
      ⟨Except.ok balance, Except.ok position, Except.ok symbolInfo,
        Except.ok markPrice⟩
      entryExchange tpExchange slExchange now).1 =
      OrderValidator.recordExecution vst signal ∧
    ∃ entryOrder tpOrder slOrder : OrderResult,
      entryOrder.success = true ∧
      (ExecutionEngine.processSignal config true vst signal
        ⟨Except.ok balance, Except.ok position, Except.ok symbolInfo,
          Except.ok markPrice⟩
        entryExchange tpExchange slExchange now).2 =
        [ExecEvent.orderExecuted
          { signal := signal, entryOrder := entryOrder,
            takeProfitOrder := some tpOrder, stopLossOrder := some slOrder,
            timestamp := now }] := by
  have hretry := executeWithRetry_of_ok_op
    (fun i => Except.ok (BinanceOrderClient.submitMarketOrder
      { symbol := signal.symbol,
        side := if signal.type = SignalType.LONG then OrderSide.BUY
          else OrderSide.SELL,
        quantity := (PositionSizer.calculatePositionSize config balance
          markPrice symbolInfo).quantity }
      (entryExchange i) now))
    config.retryDelayMs config.retryAttempts hattempts _ rfl
  rw [hentry] at hretry
  simp only [ExecutionEngine.processSignal, henabled, hvalid]
  rw [hretry]
  simp only [BinanceOrderClient.submitMarketOrder, Bool.not_true, Bool.or_self,
    Bool.false_eq_true, if_false]
  exact ⟨trivial, _, _, _, rfl, rfl⟩

/-- Config for the success-path witness (`enabled`, 3 retry
attempts). -/
def successConfig : ExecutionEngineConfig :=
  { enabled := true, testnet := false, symbol := "BTCUSDT", leverage := 10,
    positionSizePercent := 1/10, takeProfitPercent := 1/50, stopLossPercent := 1/100,
    maxPositionSizeUsdt := 10000, minPositionSizeUsdt := 10,
    retryAttempts := 3, retryDelayMs := 1000 }

/-- Balance for the success-path witness. -/
def successBalance : AccountBalance :=
  { asset := "USDT", available := 1000, total := 1000 }

/-- Symbol rules for the success-path witness. -/
def successRules : SymbolInfo :=
  { symbol := "BTCUSDT", pricePrecision := 2, quantityPrecision := 3,
    minQty := 1/1000, maxQty := 1000, stepSize := 1/1000, minNotional := 5 }

/-- Flat position for the success-path witness. -/
def successPosition : Position :=
  { symbol := "BTCUSDT", side := PositionSide.NONE, size := 0,
    entryPrice := 0, unrealizedPnl := 0, leverage := 10 }

/-- LONG signal for the success-path witness. -/
def successSignal : TradingSignal :=
  { type := SignalType.LONG, symbol := "BTCUSDT", closePrice := 49900,
    bandValue := 49850, middleBand := 50100, bandwidth := 1/100,
    timestamp := 1700000000000 }

/-- Entry fill for the success-path witness. -/
def successFill : RawFill :=
  { orderId := 42, executedQty := 1/50, avgPrice := 50000 }

/-- Witness for `processSignal_entry_success_reports_once`: successful
entry fill, both the take-profit and the stop-loss exchange calls
rejected — the dedup memory is still recorded and exactly one
`orderExecuted` event is emitted, its attached exit orders reporting
`success = false`. -/
theorem processSignal_entry_success_reports_once_witness :
    successConfig.enabled = true ∧ 1 ≤ successConfig.retryAttempts ∧
    (OrderValidator.validate OrderValidator.initialState successSignal
      successPosition
      (PositionSizer.calculatePositionSize successConfig successBalance 50000
        successRules) successRules).valid = true ∧
    ((fun _ => Except.ok successFill) : ℕ → Except String RawFill) 1
      = Except.ok successFill ∧
    (BinanceOrderClient.submitTakeProfitOrder
      { symbol := "BTCUSDT", side := OrderSide.SELL, stopPrice := 51000,
        closePosition := true } (.error "tp rejected") 1700000000123).success
      = false ∧
    (ExecutionEngine.processSignal successConfig true OrderValidator.initialState
      successSignal
      ⟨.ok successBalance, .ok successPosition, .ok successRules, .ok 50000⟩
      (fun _ => .ok successFill) (.error "tp rejected") (.error "sl rejected")
      1700000000123).1 =
      OrderValidator.recordExecution OrderValidator.initialState successSignal ∧
    ∃ entryOrder tpOrder slOrder : OrderResult,
      entryOrder.success = true ∧
      (ExecutionEngine.processSignal successConfig true OrderValidator.initialState
        successSignal
        ⟨.ok successBalance, .ok successPosition, .ok successRules, .ok 50000⟩
        (fun _ => .ok successFill) (.error "tp rejected") (.error "sl rejected")
        1700000000123).2 =
        [ExecEvent.orderExecuted
          { signal := successSignal, entryOrder := entryOrder,
            takeProfitOrder := some tpOrder, stopLossOrder := some slOrder,
            timestamp := 1700000000123 }] := by
  have hvalid : (OrderValidator.validate OrderValidator.initialState successSignal
      successPosition
      (PositionSizer.calculatePositionSize successConfig successBalance 50000
        successRules) successRules).valid = true := by
    norm_num [OrderValidator.validate, OrderValidator.isDuplicateSignal,
      OrderValidator.isConflictingPosition, OrderValidator.initialState,
      PositionSizer.calculatePositionSize, PositionSizer.adjustToPrecision,
      PositionSizer.createInvalidResult, toFixed, round_eq,
      successConfig, successBalance, successRules, successPosition, successSignal]
  have h := processSignal_entry_success_reports_once successConfig
    OrderValidator.initialState successSignal successBalance successPosition
    successRules 50000 (fun _ => .ok successFill)
    (.error "tp rejected") (.error "sl rejected") 1700000000123 successFill
    rfl (by norm_num [successConfig]) hvalid rfl
  exact ⟨rfl, by norm_num [successConfig], hvalid, rfl, rfl, h.1, h.2⟩

/-! ## C3 -/

/-- Config of the spec's §8 daily-loss scenario
(`dailyLossLimitUsdt = 100`). -/
def dailyLossConfig : RiskManagerConfig :=
  { enabled := true, dailyLossLimitUsdt := 100, maxDrawdownPercent := 1,
    autoCloseOnBreach := false, checkIntervalMs := 60000, symbol := "BTCUSDT" }

/-- State of the spec's §8 daily-loss scenario
(`dayStartBalance = 1000`, `realizedPnl = -50`). -/
def dailyLossState : RiskManager.State :=
  { dailyStats :=
      { startBalance := 1000, dayStart := 0, realizedPnl := -50, tradeCount := 1 },
    peakBalance := 1000, currentStatus := none, tradingAllowed := true }

/-- Balance of the spec's §8 daily-loss scenario
(`currentBalance = 940`). -/
def dailyLossBalance : AccountBalance :=
  { asset := "USDT", available := 940, total := 940 }

/-- Flat position used by the daily-loss scenario. -/
def dailyLossPosition : Position :=
  { symbol := "BTCUSDT", side := PositionSide.NONE, size := 0,
    entryPrice := 0, unrealizedPnl := 0, leverage := 1 }

/-- Claim **C3 (confirmed)**: every successful check publishes a snapshot
with `dailyPnl = currentBalance - dayStartBalance + realizedPnl` (for
the day stats in effect after the pre-check rollover),
`isDailyLimitBreached` exactly when `dailyPnl < -dailyLossLimitUsdt`,
and `isTradingAllowed = !isDailyLimitBreached && !isDrawdownBreached`;
in particular the spec's scenario (1000, -50, 940, limit 100) yields
`dailyPnl = -110`, a breach, and a closed gate. -/
theorem risk_snapshot_equations :
    (∀ (config : RiskManagerConfig) (st : RiskManager.State) (now : ℤ)
        (balance : AccountBalance) (position : Except String Position),
      ∃ status : RiskStatus,
        (RiskManager.checkRiskLimits config st now (.ok balance)
          position).state.currentStatus = some status ∧
        status.currentBalance = balance.total ∧
        status.dailyPnl = balance.total
          - (RiskManager.checkDayRollover st now).1.dailyStats.startBalance
          + (RiskManager.checkDayRollover st now).1.dailyStats.realizedPnl ∧
        (status.isDailyLimitBreached = true ↔
          status.dailyPnl < -config.dailyLossLimitUsdt) ∧
        status.isTradingAllowed
          = (!status.isDailyLimitBreached && !status.isDrawdownBreached)) ∧
    ((RiskManager.checkRiskLimits dailyLossConfig dailyLossState 0
        (.ok dailyLossBalance) (.ok dailyLossPosition)).state.currentStatus =
      some { dailyPnl := -110, dailyLossRemaining := 0, peakBalance := 1000,
             currentBalance := 940, currentDrawdown := 3/50,
             isDailyLimitBreached := true, isDrawdownBreached := false,
             isTradingAllowed := false, lastCheck := 0 } ∧
      (RiskManager.checkRiskLimits dailyLossConfig dailyLossState 0
        (.ok dailyLossBalance) (.ok dailyLossPosition)).state.tradingAllowed
        = false) := by
  constructor
  · intro config st now balance position
    refine ⟨RiskManager.computeStatus config
        (RiskManager.checkDayRollover st now).1.dailyStats
        (RiskManager.checkDayRollover st now).1.peakBalance balance.total now,
      ?_, rfl, ?_, ?_, ?_⟩
    · simp [RiskManager.checkRiskLimits]
    · simp [RiskManager.computeStatus]
    · simp [RiskManager.computeStatus]
    · simp [RiskManager.computeStatus]
  · constructor <;>
      norm_num [RiskManager.checkRiskLimits, RiskManager.checkDayRollover,
        RiskManager.computeStatus, RiskManager.getUtcDayStart,
        RiskManager.handleBreaches, RiskManager.closeAllPositions,
        RiskManager.createNewDayStats, RiskManager.hasStatusChanged,
        dailyLossConfig, dailyLossState, dailyLossBalance, dailyLossPosition]

/-! ## C4 -/

/-- Claim **C4 (confirmed)**: whenever a check detects a daily-loss or
drawdown breach while trading is still allowed (entering a blocked
state) and `autoCloseOnBreach` is set, the gate closes and emergency
liquidation issues exactly one cancel-all for the configured symbol
first, followed — only when a position exists (`side ≠ NONE` and
`size > 0`) — by an opposite-side market order for the full size. -/
theorem breach_with_autoclose_triggers_liquidation
    (config : RiskManagerConfig) (status : RiskStatus)
    (isDailyLimitBreached isDrawdownBreached : Bool)
    (position : Position) (now : ℤ)
    (hauto : config.autoCloseOnBreach = true)
    (hbreach : isDailyLimitBreached = true ∨ isDrawdownBreached = true) :
    (RiskManager.handleBreaches config status isDailyLimitBreached
      isDrawdownBreached true (.ok position) now).1 = false ∧
    (RiskManager.handleBreaches config status isDailyLimitBreached
      isDrawdownBreached true (.ok position) now).2.2 =
      ExchangeAction.cancelAllOrders config.symbol ::
        (if position.side ≠ PositionSide.NONE ∧ 0 < position.size then
          [ExchangeAction.submitMarketOrder config.symbol
            (if position.side = PositionSide.LONG then OrderSide.SELL
             else OrderSide.BUY) position.size]
        else []) := by
  by_cases hopen : position.side ≠ PositionSide.NONE ∧ 0 < position.size <;>
    cases isDailyLimitBreached <;> cases isDrawdownBreached <;>
    simp_all [RiskManager.handleBreaches, RiskManager.closeAllPositions, hauto]

/-- Config for the liquidation witness (`autoCloseOnBreach = true`). -/
def breachConfig : RiskManagerConfig :=
  { enabled := true, dailyLossLimitUsdt := 100, maxDrawdownPercent := 1/10,
    autoCloseOnBreach := true, checkIntervalMs := 60000, symbol := "BTCUSDT" }

/-- Snapshot for the liquidation witness (daily limit breached). -/
def breachStatus : RiskStatus :=
  { dailyPnl := -150, dailyLossRemaining := 0, peakBalance := 1000,
    currentBalance := 850, currentDrawdown := 3/20,
    isDailyLimitBreached := true, isDrawdownBreached := false,
    isTradingAllowed := false, lastCheck := 86400000 }

/-- Open LONG position of size 2 for the liquidation witness. -/
def breachPosition : Position :=
  { symbol := "BTCUSDT", side := PositionSide.LONG, size := 2,
    entryPrice := 400, unrealizedPnl := -150, leverage := 10 }

/-- Witness for `breach_with_autoclose_triggers_liquidation`: daily
breach with auto-close on and an open LONG position of size 2 — the
gate closes, all orders are cancelled, then a SELL market order for
the full 2 units is submitted. -/
theorem breach_with_autoclose_triggers_liquidation_witness :
    breachConfig.autoCloseOnBreach = true ∧
    ((true : Bool) = true ∨ (false : Bool) = true) ∧
    (RiskManager.handleBreaches breachConfig breachStatus true false true
      (.ok breachPosition) 86400000).1 = false ∧
    (RiskManager.handleBreaches breachConfig breachStatus true false true
      (.ok breachPosition) 86400000).2.2 =
      [ExchangeAction.cancelAllOrders "BTCUSDT",
       ExchangeAction.submitMarketOrder "BTCUSDT" OrderSide.SELL 2] := by
  have h := breach_with_autoclose_triggers_liquidation breachConfig breachStatus
    true false breachPosition 86400000 rfl (Or.inl rfl)
  refine ⟨rfl, Or.inl rfl, h.1, ?_⟩
  rw [h.2]
  norm_num [breachPosition, breachConfig]
  decide

/-! ## C5 -/

/-- State used to refute C5 as stated: blocked on the daily limit
yesterday (last snapshot has `isDrawdownBreached = false`), with the
next check falling on the following UTC day. -/
def staleBlockedState : RiskManager.State :=
  { dailyStats :=
      { startBalance := 1000, dayStart := 0, realizedPnl := -200, tradeCount := 3 },
    peakBalance := 1000,
    currentStatus := some
      { dailyPnl := -200, dailyLossRemaining := 0, peakBalance := 1000,
        currentBalance := 800, currentDrawdown := 1/5,
        isDailyLimitBreached := true, isDrawdownBreached := false,
        isTradingAllowed := false, lastCheck := 86300000 },
    tradingAllowed := false }

/-- Claim **C5 (as stated, refuted)**: a check whose balance query fails can
still change the trading gate, because the UTC-day rollover runs before
the query.  Here the gate is `false` before the check; the balance
query fails; the check still flips the gate to `true` (and emits
`tradingResumed` before the error event). -/
theorem risk_query_failure_gate_cex :
    staleBlockedState.tradingAllowed = false ∧
    (RiskManager.checkRiskLimits dailyLossConfig staleBlockedState 86400000
      (.error "Request timeout") (.error "unused")).state.tradingAllowed = true ∧
    (RiskManager.checkRiskLimits dailyLossConfig staleBlockedState 86400000
      (.error "Request timeout") (.error "unused")).events =
      [RiskEvent.tradingResumed, RiskEvent.errorEvent "Request timeout"] := by
  refine ⟨rfl, ?_, ?_⟩ <;>
    norm_num [RiskManager.checkRiskLimits, RiskManager.checkDayRollover,
      RiskManager.getUtcDayStart, RiskManager.createNewDayStats,
      dailyLossConfig, staleBlockedState]

/-- Claim **C5 (amended)**: when the balance query fails and no UTC-day
rollover occurs during the check, the check changes nothing — the full
state (gate included) is left untouched, exactly one error event is
emitted, and no exchange action is issued; the query failure itself
never moves the gate (only the pre-query rollover can). -/
theorem risk_query_failure_fail_static (config : RiskManagerConfig)
    (st : RiskManager.State) (now : ℤ) (e : String)
    (position : Except String Position)
    (hnoroll : RiskManager.getUtcDayStart now ≤ st.dailyStats.dayStart) :
    RiskManager.checkRiskLimits config st now (.error e) position =
      { state := st, events := [RiskEvent.errorEvent e], actions := [] } := by
  have hroll : RiskManager.checkDayRollover st now = (st, []) := by
    unfold RiskManager.checkDayRollover
    rw [if_neg (not_lt.mpr hnoroll)]
  simp [RiskManager.checkRiskLimits, hroll]

/-- Witness for `risk_query_failure_fail_static`: a mid-day check
(`now = 86450000`, same UTC day as `dayStart = 86400000`) with a failed
balance query leaves the state untouched and reports one error. -/
theorem risk_query_failure_fail_static_witness :
    RiskManager.getUtcDayStart 86450000 ≤ (86400000 : ℤ) ∧
    RiskManager.checkRiskLimits dailyLossConfig
      { dailyStats :=
          { startBalance := 1000, dayStart := 86400000, realizedPnl := 0, tradeCount := 0 },
        peakBalance := 1000, currentStatus := none, tradingAllowed := true }
      86450000 (.error "Request timeout") (.error "unused") =
      { state :=
          { dailyStats :=
              { startBalance := 1000, dayStart := 86400000, realizedPnl := 0, tradeCount := 0 },
            peakBalance := 1000, currentStatus := none, tradingAllowed := true },
        events := [RiskEvent.errorEvent "Request timeout"], actions := [] } := by
  have hle : RiskManager.getUtcDayStart 86450000 ≤ (86400000 : ℤ) := by
    norm_num [RiskManager.getUtcDayStart]
  exact ⟨hle, risk_query_failure_fail_static dailyLossConfig _ 86450000
    "Request timeout" (.error "unused") hle⟩

/-! ## C8 -/

/-- Claim **C8 (confirmed)**: at a UTC-midnight rollover, the daily stats are
rebuilt with the last snapshot's balance as the new start balance and
`realizedPnl`/`tradeCount` zeroed; when trading was blocked, the block
is cleared (with a `tradingResumed` event) exactly when the snapshot's
drawdown flag is clear, and a drawdown block is never cleared by the
rollover itself. -/
theorem rollover_resets_stats_and_clears_daily_block
    (st : RiskManager.State) (now : ℤ) (s : RiskStatus)
    (hroll : st.dailyStats.dayStart < RiskManager.getUtcDayStart now)
    (hs : st.currentStatus = some s) :
    (RiskManager.checkDayRollover st now).1.dailyStats =
      { startBalance := s.currentBalance,
        dayStart := RiskManager.getUtcDayStart now,
        realizedPnl := 0, tradeCount := 0 } ∧
    (st.tradingAllowed = false →
      (((RiskManager.checkDayRollover st now).1.tradingAllowed = true ∧
        (RiskManager.checkDayRollover st now).2 = [RiskEvent.tradingResumed]) ↔
        s.isDrawdownBreached = false)) ∧
    (s.isDrawdownBreached = true →
      (RiskManager.checkDayRollover st now).1.tradingAllowed = st.tradingAllowed ∧
      (RiskManager.checkDayRollover st now).2 = []) := by
  unfold RiskManager.checkDayRollover
  rw [if_pos hroll]
  refine ⟨by simp [hs, RiskManager.createNewDayStats], ?_, ?_⟩
  · intro hta
    cases hdd : s.isDrawdownBreached <;> simp_all [RiskManager.createNewDayStats]
  · intro hdd
    cases hta : st.tradingAllowed <;> simp_all [RiskManager.createNewDayStats]

/-- Witness for `rollover_resets_stats_and_clears_daily_block` at
`staleBlockedState` (blocked on the daily limit, drawdown clear, last
snapshot balance 800) rolling into day `86400000`: the stats reset to
start balance 800 and trading resumes. -/
theorem rollover_resets_stats_witness :
    staleBlockedState.dailyStats.dayStart < RiskManager.getUtcDayStart 86400000 ∧
    staleBlockedState.currentStatus = some
      { dailyPnl := -200, dailyLossRemaining := 0, peakBalance := 1000,
        currentBalance := 800, currentDrawdown := 1/5,
        isDailyLimitBreached := true, isDrawdownBreached := false,
        isTradingAllowed := false, lastCheck := 86300000 } ∧
    (RiskManager.checkDayRollover staleBlockedState 86400000).1.dailyStats =
      { startBalance := 800, dayStart := RiskManager.getUtcDayStart 86400000,
        realizedPnl := 0, tradeCount := 0 } ∧
    ((RiskManager.checkDayRollover staleBlockedState 86400000).1.tradingAllowed = true ∧
      (RiskManager.checkDayRollover staleBlockedState 86400000).2 =
        [RiskEvent.tradingResumed]) := by
  have hroll : staleBlockedState.dailyStats.dayStart
      < RiskManager.getUtcDayStart 86400000 := by
    norm_num [RiskManager.getUtcDayStart, staleBlockedState]
  have h := rollover_resets_stats_and_clears_daily_block staleBlockedState
    86400000
    { dailyPnl := -200, dailyLossRemaining := 0, peakBalance := 1000,
      currentBalance := 800, currentDrawdown := 1/5,
      isDailyLimitBreached := true, isDrawdownBreached := false,
      isTradingAllowed := false, lastCheck := 86300000 }
    hroll rfl
  exact ⟨hroll, rfl, h.1, ((h.2.1 rfl).mpr rfl)⟩

end Noticebot
